import Mathlib

/-!
# Verification of the qBittorrent Web-API client

Shallow embedding of the Go client in `client.go` (package `qbittorrent`,
the mutex-protected canonical client): the retrying request dispatcher
`doRequest`, the authenticator `AuthLogin`, the constructor `NewClient`,
the helpers `doGet`/`doPost`, the query building of `TorrentsInfo`, and
the custom tag decoding of `TorrentInfo.UnmarshalJSON`.

The HTTP transport is modelled as a queue of server responses consumed in
order; the state also records the session token (`sid`) and the trace of
requests handed to the transport.  Because `AuthLogin` dispatches its
login POST through `doRequest` itself, the Go code is recursive; the
recursion is embedded with an explicit fuel parameter (`fuelExhausted`
marks the diverging computations the Go code would loop on).
-/

namespace QBit

/-- Credentials held by the client (`Client.username` / `Client.password`). -/
structure Cred where
  username : String
  password : String
  deriving DecidableEq, Repr

/-- Query parameters, modelling `url.Values` as an ordered association list. -/
abbrev QList := List (String × String)

/-- An outbound HTTP request as built by `makeRequest` inside `doRequest`:
method, endpoint path, buffered body, content type, cookies added via
`AddCookie`, and the query attached by the `withQuery` modifier. -/
structure Request where
  method : String
  urlPath : String
  reqBody : Option String
  contentType : String
  cookies : List (String × String)
  query : QList
  deriving DecidableEq, Repr

/-- A server response: status code, body text, and cookies
(`resp.Cookies()`) as name/value pairs. -/
structure Response where
  status : Nat
  respBody : String
  cookies : List (String × String)
  deriving DecidableEq, Repr

/-- Client/transport state: the stored session token `Client.sid`, the
queue of responses the server will give (in order), and the trace of
requests sent so far. -/
structure St where
  sid : String
  pending : List Response
  sent : List Request
  deriving DecidableEq, Repr

/-- Errors, one constructor per distinct error shape in the source. -/
inductive Err where
  /-- Marker for computations on which the Go code recurses without bound. -/
  | fuelExhausted : Err
  /-- `c.client.Do(req)` failed (here: the response queue is exhausted). -/
  | transport : Err
  /-- `AuthLogin`: `fmt.Errorf("AuthLogin error: %v", err)` wrapping a
  transport-level failure of the login POST. -/
  | authWrap (e : Err) : Err
  /-- `AuthLogin`: `fmt.Errorf("AuthLogin error (%d): %s", status, body)`. -/
  | authStatus (status : Nat) (respBody : String) : Err
  /-- `doRequest`: `fmt.Errorf("re-authentication failed: %v", err)`. -/
  | reAuth (e : Err) : Err
  /-- `doGet`: `fmt.Errorf("unexpected response code: %d, response: %s", ...)`. -/
  | unexpectedCode (status : Nat) (respBody : String) : Err
  /-- `doPost`: `fmt.Errorf("POST error (%d): %s", status, body)`. -/
  | postStatus (status : Nat) (respBody : String) : Err
  /-- `NewClient`: `fmt.Errorf("AuthLogin error: %v", err)`. -/
  | newClientErr (e : Err) : Err
  deriving DecidableEq, Repr

/-- The login endpoint path used by `AuthLogin`. -/
def loginPath : String := "/api/v2/auth/login"

/-- Content type of the login POST. -/
def formContentType : String := "application/x-www-form-urlencoded"

/-- The form-encoded login body built by `AuthLogin` from `url.Values`
with keys `username`/`password` (`Encode` emits keys sorted, so
`password` first; percent-escaping of the values is not modelled, no
claim inspects this string). -/
def loginForm (c : Cred) : String :=
  "password=" ++ c.password ++ "&username=" ++ c.username

/-- `makeRequest` inside `doRequest`: builds the request from the buffered
body, sets the content type, adds the `SID` cookie when the stored token
is non-empty, and applies the `withQuery` modifier when present. -/
def mkReq (method endpoint : String) (reqBody : Option String)
    (contentType : String) (query : Option QList) (sid : String) : Request :=
  { method := method
    urlPath := endpoint
    reqBody := reqBody
    contentType := contentType
    cookies := if sid ≠ "" then [("SID", sid)] else []
    query := match query with
      | some q => q
      | none => [] }

/-- `c.client.Do(req)`: hand the request to the transport.  The next
queued response answers it; an empty queue models a transport failure
(no response obtained, request not recorded as answered). -/
def send (req : Request) (s : St) : Option Response × St :=
  match s.pending with
  | [] => (none, s)
  | r :: rest => (some r, { sid := s.sid, pending := rest, sent := s.sent ++ [req] })

/-- `Client.doRequest`, with `AuthLogin`'s body inlined at the 403 branch
(in Go the branch calls `c.AuthLogin()`, which itself posts to the login
endpoint through `doRequest` — hence the recursion, here fuelled):

1. build the request with the current token and send it;
2. on 403, dispatch a login POST (recursively through `doRequest`),
   check it for status 200 and harvest the first `SID` cookie
   (`AuthLogin`), wrapping any failure in `re-authentication failed`;
3. on login success rebuild the original request with the refreshed
   token and send it exactly once more, returning that response raw;
4. any non-403 first response is returned raw. -/
def doRequestF (c : Cred) (method endpoint : String) (reqBody : Option String)
    (contentType : String) (query : Option QList) : Nat → St → Except Err Response × St
  | 0, s => (.error .fuelExhausted, s)
  | fuel + 1, s =>
    match send (mkReq method endpoint reqBody contentType query s.sid) s with
    | (none, s1) => (.error .transport, s1)
    | (some resp, s1) =>
      if resp.status = 403 then
        -- c.AuthLogin(), inlined: doPostResponse on the login endpoint …
        match doRequestF c "POST" loginPath (some (loginForm c)) formContentType none fuel s1 with
        | (.error e, s2) => (.error (.reAuth (.authWrap e)), s2)
        | (.ok lresp, s2) =>
          if lresp.status ≠ 200 then
            (.error (.reAuth (.authStatus lresp.status lresp.respBody)), s2)
          else
            -- … extract the first SID cookie into the session store
            let s3 : St :=
              match lresp.cookies.find? (fun kv => kv.1 = "SID") with
              | some kv => { s2 with sid := kv.2 }
              | none => s2
            -- retry the original request with the new SID
            match send (mkReq method endpoint reqBody contentType query s3.sid) s3 with
            | (none, s4) => (.error .transport, s4)
            | (some resp2, s4) => (.ok resp2, s4)
      else
        (.ok resp, s1)

/-- `Client.AuthLogin`: POST the credentials to the login endpoint via
the dispatcher, fail on transport error or non-200 status, otherwise
store the value of the first `SID` response cookie (if any). -/
def authLoginF (c : Cred) (fuel : Nat) (s : St) : Except Err Unit × St :=
  match doRequestF c "POST" loginPath (some (loginForm c)) formContentType none fuel s with
  | (.error e, s1) => (.error (.authWrap e), s1)
  | (.ok resp, s1) =>
    if resp.status ≠ 200 then
      (.error (.authStatus resp.status resp.respBody), s1)
    else
      match resp.cookies.find? (fun kv => kv.1 = "SID") with
      | some kv => (.ok (), { s1 with sid := kv.2 })
      | none => (.ok (), s1)

/-- `NewClient`: build the client (token starts empty) and, when both
credentials are non-empty, run `AuthLogin`, aborting construction on
its failure.  The returned `String` is the constructed client's stored
session token. -/
def newClientF (username password : String) (fuel : Nat)
    (pending : List Response) : Except Err String × St :=
  let s : St := { sid := "", pending := pending, sent := [] }
  if username ≠ "" ∧ password ≠ "" then
    match authLoginF { username := username, password := password } fuel s with
    | (.error e, s1) => (.error (.newClientErr e), s1)
    | (.ok _, s1) => (.ok s1.sid, s1)
  else
    (.ok s.sid, s)

/-- `Client.doGet`: GET through the dispatcher with `withQuery` attached,
returning the body on status 200 and `unexpected response code` otherwise. -/
def doGetF (c : Cred) (fuel : Nat) (endpoint : String) (query : QList)
    (s : St) : Except Err String × St :=
  match doRequestF c "GET" endpoint none "" (some query) fuel s with
  | (.error e, s1) => (.error e, s1)
  | (.ok resp, s1) =>
    if resp.status ≠ 200 then
      (.error (.unexpectedCode resp.status resp.respBody), s1)
    else
      (.ok resp.respBody, s1)

/-- `Client.doPost`: POST through the dispatcher, returning the body on
status 200 and `POST error` otherwise. -/
def doPostF (c : Cred) (fuel : Nat) (endpoint : String) (reqBody : String)
    (contentType : String) (s : St) : Except Err String × St :=
  match doRequestF c "POST" endpoint (some reqBody) contentType none fuel s with
  | (.error e, s1) => (.error e, s1)
  | (.ok resp, s1) =>
    if resp.status ≠ 200 then
      (.error (.postStatus resp.status resp.respBody), s1)
    else
      (.ok resp.respBody, s1)

/-- Number of requests in a trace addressed to a given endpoint path. -/
def countPath (p : String) (l : List Request) : Nat :=
  (l.filter (fun r => r.urlPath = p)).length

/-! ## Tag decoding (`TorrentInfo.UnmarshalJSON`)

Go strings are modelled as `List Char`; `strings.Split(s, ",")` is
`List.splitOn ','` (both split around every separator occurrence and
keep empty components), `strings.Join(l, ",")` is `[','].intercalate l`. -/

/-- The custom decode step for the `tags` field in
`TorrentInfo.UnmarshalJSON`: an empty raw string yields an empty tag
list, otherwise the raw string is split on commas. -/
def decodeTags (raw : List Char) : List (List Char) :=
  if raw = [] then [] else raw.splitOn ','

/-- `strings.Join(tags, ",")`: the inverse direction, used to state the
losslessness of the tag decoding. -/
def joinTags (tags : List (List Char)) : List Char :=
  [','].intercalate tags

/-! ## `TorrentsInfo` query building -/

/-- The optional parameters of `TorrentsInfo` (`TorrentsInfoParams`). -/
structure TorrentsInfoParams where
  filterStr : String := ""
  category : String := ""
  tag : String := ""
  sort : String := ""
  reverse : Bool := false
  limit : Int := 0
  offset : Int := 0
  hashes : List String := []
  deriving DecidableEq, Repr

/-- `url.Values.Set`: replace the value stored under a key, appending the
pair when the key is absent. -/
def setVal (q : QList) (k v : String) : QList :=
  match q with
  | [] => [(k, v)]
  | kv :: rest => if kv.1 = k then (k, v) :: rest else kv :: setVal rest k v

/-- Value stored under a key, `url.Values.Get` (`none` when the key was
never set, i.e. the parameter is absent from the query). -/
def getVal : QList → String → Option String
  | [], _ => none
  | kv :: rest, k => if kv.1 = k then some kv.2 else getVal rest k

/-- The query built by `TorrentsInfo`: `none` models the call without a
params argument (`query` stays nil); with params, each non-default field
is set in source order, and the hash list — when non-empty — is joined
with `|` under the `hashes` key. -/
def torrentsInfoQuery : Option TorrentsInfoParams → QList
  | none => []
  | some p =>
    let q : QList := []
    let q := if p.filterStr ≠ "" then setVal q "filter" p.filterStr else q
    let q := if p.category ≠ "" then setVal q "category" p.category else q
    let q := if p.tag ≠ "" then setVal q "tag" p.tag else q
    let q := if p.sort ≠ "" then setVal q "sort" p.sort else q
    let q := if p.reverse then setVal q "reverse" "true" else q
    let q := if p.limit > 0 then setVal q "limit" (toString p.limit) else q
    let q := if p.offset ≠ 0 then setVal q "offset" (toString p.offset) else q
    let q := if p.hashes.length > 0 then setVal q "hashes" (String.intercalate "|" p.hashes) else q
    q

/-! ## Trace lemmas -/

theorem send_none {req : Request} {s s1 : St} (h : send req s = (none, s1)) : s1 = s := by
  unfold send at h
  cases hp : s.pending with
  | nil => rw [hp] at h; simpa using h.symm
  | cons r0 rest => rw [hp] at h; simp at h

theorem send_some {req : Request} {s s1 : St} {r : Response}
    (h : send req s = (some r, s1)) : s1.sent = s.sent ++ [req] := by
  unfold send at h
  cases hp : s.pending with
  | nil => rw [hp] at h; simp at h
  | cons r0 rest =>
    rw [hp] at h
    simp only [Prod.mk.injEq] at h
    rw [← h.2]

theorem countPath_append (p : String) (l1 l2 : List Request) :
    countPath p (l1 ++ l2) = countPath p l1 + countPath p l2 := by
  simp [countPath, List.filter_append]

theorem mkReq_urlPath (m e : String) (rb : Option String) (ct : String)
    (q : Option QList) (sid : String) : (mkReq m e rb ct q sid).urlPath = e := rfl

theorem countPath_mkReq_ne (ep m e : String) (rb : Option String) (ct : String)
    (q : Option QList) (sid : String) (h : e ≠ ep) :
    countPath ep [mkReq m e rb ct q sid] = 0 := by
  simp [countPath, List.filter, mkReq, h]

theorem countPath_mkReq_self (ep m : String) (rb : Option String) (ct : String)
    (q : Option QList) (sid : String) :
    countPath ep [mkReq m ep rb ct q sid] = 1 := by
  simp [countPath, List.filter, mkReq]

/-- Every request that a dispatch addressed to the login endpoint adds to
the trace is itself a login request: the recursion inside `doRequest`
only ever re-dispatches to the login endpoint.  Stated as preservation
of the count of requests to any other endpoint. -/
theorem countPath_doRequestF_login (c : Cred) (ep : String) (hep : ep ≠ loginPath) :
    ∀ (fuel : Nat) (method : String) (rb : Option String) (ct : String)
      (q : Option QList) (s : St),
      countPath ep (doRequestF c method loginPath rb ct q fuel s).2.sent =
        countPath ep s.sent := by
  have hlog : loginPath ≠ ep := fun h => hep h.symm
  intro fuel
  induction fuel with
  | zero => intro method rb ct q s; rfl
  | succ n ih =>
    intro method rb ct q s
    simp only [doRequestF]
    split
    · next s1 heq => rw [send_none heq]
    · next resp s1 heq =>
      have hs1 : countPath ep s1.sent = countPath ep s.sent := by
        rw [send_some heq, countPath_append,
          countPath_mkReq_ne ep method loginPath rb ct q s.sid hlog, Nat.add_zero]
      split
      · -- 403 branch
        split
        · next e s2 heq2 =>
          have := ih "POST" (some (loginForm c)) formContentType none s1
          rw [heq2] at this
          simpa [this] using hs1
        · next lresp s2 heq2 =>
          have h2 : countPath ep s2.sent = countPath ep s.sent := by
            have := ih "POST" (some (loginForm c)) formContentType none s1
            rw [heq2] at this
            simpa [this] using hs1
          split
          · exact h2
          · -- login succeeded: cookie update, then resend
            split
            · next s4 heq4 =>
              rw [send_none heq4]
              split <;> simpa using h2
            · next resp2 s4 heq4 =>
              rw [send_some heq4, countPath_append,
                countPath_mkReq_ne ep method loginPath rb ct q _ hlog, Nat.add_zero]
              split <;> simpa using h2
      · exact hs1

/-! ## Query-map lemmas -/

theorem getVal_setVal_self (q : QList) (k v : String) :
    getVal (setVal q k v) k = some v := by
  induction q with
  | nil => simp [setVal, getVal]
  | cons kv rest ih =>
    by_cases hk : kv.1 = k
    · simp [setVal, getVal, hk]
    · simp [setVal, getVal, hk, ih]

theorem getVal_setVal_ne (q : QList) (k k2 v : String) (h : k ≠ k2) :
    getVal (setVal q k v) k2 = getVal q k2 := by
  induction q with
  | nil => simp [setVal, getVal, h]
  | cons kv rest ih =>
    by_cases hk : kv.1 = k
    · simp [setVal, getVal, hk, h]
    · simp [setVal, getVal, hk, ih]

theorem getVal_ite_setVal (c : Prop) [Decidable c] (q : QList) (k k2 v : String)
    (h : k ≠ k2) :
    getVal (if c then setVal q k v else q) k2 = getVal q k2 := by
  split
  · exact getVal_setVal_ne q k k2 v h
  · rfl

/-- The `hashes` entry of the query built by `TorrentsInfo` is governed
solely by the hash list: absent when the list is empty, the `|`-join of
the list otherwise — the seven other optional parameters never touch it. -/
theorem torrentsInfoQuery_hashes (p : TorrentsInfoParams) :
    getVal (torrentsInfoQuery (some p)) "hashes" =
      if p.hashes.length > 0 then some (String.intercalate "|" p.hashes) else none := by
  have e : ∀ (k : String), k ≠ "hashes" →
      ∀ (c : Prop) [Decidable c] (q : QList) (v : String),
        getVal (if c then setVal q k v else q) "hashes" = getVal q "hashes" :=
    fun k hk c _ q v => getVal_ite_setVal c q k "hashes" v hk
  simp only [torrentsInfoQuery]
  by_cases hh : p.hashes.length > 0
  · rw [if_pos hh, if_pos hh, getVal_setVal_self]
  · rw [if_neg hh, if_neg hh,
      e "offset" (by decide), e "limit" (by decide), e "reverse" (by decide),
      e "sort" (by decide), e "tag" (by decide), e "category" (by decide),
      e "filter" (by decide)]
    rfl

/-! ## The claims -/

/-- Claim C6 (confirmed): for every client construction where the
username or the password is the empty string, no login request is
issued (the request trace stays empty), construction succeeds, and the
stored session token remains the empty string. -/
theorem C6_skip_auth (u p : String) (fuel : Nat) (pending : List Response)
    (h : u = "" ∨ p = "") :
    newClientF u p fuel pending = (.ok "", { sid := "", pending := pending, sent := [] }) := by
  rcases h with h | h <;> simp [newClientF, h]

/-- Claim C6 witness: construction with an empty username skips login. -/
theorem C6_skip_auth_witness :
    (("" : String) = "" ∨ ("p" : String) = "")
    ∧ newClientF "" "p" 5 [⟨200, "Ok.", []⟩] =
        (.ok "", { sid := "", pending := [⟨200, "Ok.", []⟩], sent := [] }) :=
  ⟨Or.inl rfl, C6_skip_auth "" "p" 5 [⟨200, "Ok.", []⟩] (Or.inl rfl)⟩

/-- Claim C8 (confirmed): the tags decode step of
`TorrentInfo.UnmarshalJSON` sends the empty raw string to the empty tag
collection and `"tag1,tag2,tag3"` to `["tag1", "tag2", "tag3"]`; in
general a non-empty raw string is split on commas. -/
theorem C8_tags_decode :
    decodeTags "".toList = []
    ∧ decodeTags "tag1,tag2,tag3".toList = ["tag1".toList, "tag2".toList, "tag3".toList]
    ∧ ∀ raw : List Char, raw ≠ [] → decodeTags raw = raw.splitOn ',' := by
  refine ⟨rfl, by decide, ?_⟩
  intro raw h
  simp [decodeTags, h]

/-- Claim C8 witness: splitting a concrete non-empty raw tag string. -/
theorem C8_tags_decode_witness :
    "a,b".toList ≠ [] ∧ decodeTags "a,b".toList = "a,b".toList.splitOn ',' :=
  ⟨by decide, C8_tags_decode.2.2 "a,b".toList (by decide)⟩

/-- Claim C10 (confirmed): the tags decoding is lossless — joining the
decoded tag sequence back with a comma yields the original raw string,
for every raw string (the empty collection joins back to the empty
string, and splitting keeps empty components). -/
theorem C10_tags_roundtrip (raw : List Char) : joinTags (decodeTags raw) = raw := by
  by_cases h : raw = []
  · subst h; rfl
  · simp only [decodeTags, joinTags, if_neg h]
    exact List.intercalate_splitOn raw ','

/-- Claim C9 (confirmed): in the query built by `TorrentsInfo`, the
`hashes` parameter is absent when no params are given or the hash list
is empty; equals the sole hash when the list is a singleton; and equals
the `|`-join of the hashes, in order, when there are several. -/
theorem C9_hashes_param (p : TorrentsInfoParams) :
    getVal (torrentsInfoQuery none) "hashes" = none
    ∧ (p.hashes = [] → getVal (torrentsInfoQuery (some p)) "hashes" = none)
    ∧ (∀ h : String, p.hashes = [h] →
        getVal (torrentsInfoQuery (some p)) "hashes" = some h)
    ∧ (∀ (h1 h2 : String) (t : List String), p.hashes = h1 :: h2 :: t →
        getVal (torrentsInfoQuery (some p)) "hashes" =
          some (String.intercalate "|" (h1 :: h2 :: t))) := by
  refine ⟨rfl, ?_, ?_, ?_⟩
  · intro h
    rw [torrentsInfoQuery_hashes]
    simp [h]
  · intro hsh h
    rw [torrentsInfoQuery_hashes, h, if_pos (by simp : ([hsh] : List String).length > 0)]
    rfl
  · intro h1 h2 t h
    rw [torrentsInfoQuery_hashes, h,
      if_pos (by simp : (h1 :: h2 :: t).length > 0)]

/-- Claim C9 witness: two hashes are joined with `|`. -/
theorem C9_hashes_param_witness :
    (⟨"", "", "", "", false, 0, 0, ["h1", "h2"]⟩ : TorrentsInfoParams).hashes
        = "h1" :: "h2" :: []
    ∧ getVal (torrentsInfoQuery (some ⟨"", "", "", "", false, 0, 0, ["h1", "h2"]⟩)) "hashes"
        = some (String.intercalate "|" ("h1" :: "h2" :: [])) :=
  ⟨rfl, (C9_hashes_param _).2.2.2 "h1" "h2" [] rfl⟩

/-- Claim C4 (confirmed): for every dispatched request whose first
attempt returns a non-200 status other than 403 (stated for the two
status-checking dispatch helpers, `doGet` and `doPost`), the call
returns an error carrying that status code and the response body text,
and exactly one request is sent — no retry, no re-authentication. -/
theorem C4_non200_no_retry (c : Cred) (fuel : Nat) (endpoint : String) (q : QList)
    (pb ct sid0 bodyTxt : String) (n : Nat) (rcook : List (String × String))
    (rest : List Response) (h200 : n ≠ 200) (h403 : n ≠ 403) :
    doGetF c (fuel + 1) endpoint q
        { sid := sid0, pending := ⟨n, bodyTxt, rcook⟩ :: rest, sent := [] } =
      (.error (.unexpectedCode n bodyTxt),
        { sid := sid0, pending := rest,
          sent := [mkReq "GET" endpoint none "" (some q) sid0] })
    ∧ doPostF c (fuel + 1) endpoint pb ct
        { sid := sid0, pending := ⟨n, bodyTxt, rcook⟩ :: rest, sent := [] } =
      (.error (.postStatus n bodyTxt),
        { sid := sid0, pending := rest,
          sent := [mkReq "POST" endpoint (some pb) ct none sid0] }) := by
  constructor <;> simp [doGetF, doPostF, doRequestF, send, h200, h403]

/-- Claim C4 witness: a 500 answer to a GET and to a POST. -/
theorem C4_non200_no_retry_witness :
    (500 : Nat) ≠ 200 ∧ (500 : Nat) ≠ 403
    ∧ (doGetF ⟨"u", "p"⟩ 3 "/api/v2/torrents/info" []
        { sid := "", pending := [⟨500, "oops", []⟩], sent := [] } =
      (.error (.unexpectedCode 500 "oops"),
        { sid := "", pending := [],
          sent := [mkReq "GET" "/api/v2/torrents/info" none "" (some []) ""] })
    ∧ doPostF ⟨"u", "p"⟩ 3 "/api/v2/torrents/info" "hashes=h" formContentType
        { sid := "", pending := [⟨500, "oops", []⟩], sent := [] } =
      (.error (.postStatus 500 "oops"),
        { sid := "", pending := [],
          sent := [mkReq "POST" "/api/v2/torrents/info" (some "hashes=h")
            formContentType none ""] })) :=
  ⟨by decide, by decide,
    C4_non200_no_retry ⟨"u", "p"⟩ 2 "/api/v2/torrents/info" [] "hashes=h"
      formContentType "" "oops" 500 [] [] (by decide) (by decide)⟩

/-- Claim C5 (confirmed): when both credentials are non-empty and the
login endpoint answers 200, the constructed client's stored session
token equals the value of the (first) `SID` response cookie; when the
200 response carries no `SID` cookie, construction still succeeds and
the token stays empty — not an error. -/
theorem C5_login_cookie_stored (u p : String) (fuel : Nat) (bodyTxt : String)
    (cook : List (String × String)) (rest : List Response)
    (hu : u ≠ "") (hp : p ≠ "") :
    (∀ kv : String × String,
        cook.find? (fun c0 => c0.1 = "SID") = some kv →
        (newClientF u p (fuel + 1) (⟨200, bodyTxt, cook⟩ :: rest)).1 = .ok kv.2)
    ∧ (cook.find? (fun c0 => c0.1 = "SID") = none →
        (newClientF u p (fuel + 1) (⟨200, bodyTxt, cook⟩ :: rest)).1 = .ok "") := by
  constructor
  · intro kv hkv
    simp [newClientF, authLoginF, doRequestF, send, hu, hp, hkv]
  · intro hkv
    simp [newClientF, authLoginF, doRequestF, send, hu, hp, hkv]

/-- Claim C5 witness: a 200 login answer carrying `SID=tok123`, and a
200 login answer with no cookie. -/
theorem C5_login_cookie_stored_witness :
    ("u" : String) ≠ "" ∧ ("p" : String) ≠ ""
    ∧ [("other", "x"), ("SID", "tok123")].find? (fun c0 => c0.1 = "SID")
        = some ("SID", "tok123")
    ∧ (newClientF "u" "p" 3
        [⟨200, "Ok.", [("other", "x"), ("SID", "tok123")]⟩]).1 = .ok "tok123"
    ∧ (newClientF "u" "p" 3 [⟨200, "Ok.", []⟩]).1 = .ok "" :=
  ⟨by decide, by decide, by decide,
    (C5_login_cookie_stored "u" "p" 2 "Ok." [("other", "x"), ("SID", "tok123")] []
      (by decide) (by decide)).1 ("SID", "tok123") (by decide),
    (C5_login_cookie_stored "u" "p" 2 "Ok." [] [] (by decide) (by decide)).2 rfl⟩

/-- Claim C7 counterexample: with non-empty credentials and the login
endpoint answering the login request with the non-200 status 403
(then 200 with a cookie, then 200), `NewClient` does not fail: it
returns a client whose stored token is the cookie value — the 403 reply
to the login request triggers the dispatcher's own nested
re-authentication instead of an `AuthLogin` failure. -/
theorem C7_counterexample :
    (newClientF "u" "p" 10
        [⟨403, "", []⟩, ⟨200, "", [("SID", "t")]⟩, ⟨200, "Ok.", []⟩]).1 = .ok "t" := rfl

/-- Claim C7 (amended): for every client construction where both
credentials are non-empty and the login endpoint answers the login
request with a non-200 status other than 403, `NewClient` returns an
error wrapping the login failure (which carries the status and body
text) and no client instance is produced.  (A 403 answer to the login
request is instead consumed by the dispatcher's nested
re-authentication and need not abort construction.) -/
theorem C7_amended_login_failure (u p : String) (fuel : Nat) (n : Nat) (bodyTxt : String)
    (rcook : List (String × String)) (rest : List Response)
    (hu : u ≠ "") (hp : p ≠ "") (h200 : n ≠ 200) (h403 : n ≠ 403) :
    newClientF u p (fuel + 1) (⟨n, bodyTxt, rcook⟩ :: rest) =
      (.error (.newClientErr (.authStatus n bodyTxt)),
        { sid := "", pending := rest,
          sent := [mkReq "POST" loginPath (some (loginForm ⟨u, p⟩))
            formContentType none ""] }) := by
  simp [newClientF, authLoginF, doRequestF, send, hu, hp, h200, h403]

/-- Claim C7 witness: login answered 401. -/
theorem C7_amended_login_failure_witness :
    ("u" : String) ≠ "" ∧ ("p" : String) ≠ ""
    ∧ (401 : Nat) ≠ 200 ∧ (401 : Nat) ≠ 403
    ∧ newClientF "u" "p" 3 [⟨401, "Fails.", []⟩] =
      (.error (.newClientErr (.authStatus 401 "Fails.")),
        { sid := "", pending := [],
          sent := [mkReq "POST" loginPath (some (loginForm ⟨"u", "p"⟩))
            formContentType none ""] }) :=
  ⟨by decide, by decide, by decide, by decide,
    C7_amended_login_failure "u" "p" 2 401 "Fails." [] []
      (by decide) (by decide) (by decide) (by decide)⟩

/-- `AuthLogin` only ever adds login requests to the trace: the count of
requests to any other endpoint is unchanged by it. -/
theorem countPath_authLoginF (c : Cred) (ep : String) (hep : ep ≠ loginPath)
    (fuel : Nat) (s : St) :
    countPath ep (authLoginF c fuel s).2.sent = countPath ep s.sent := by
  have base := countPath_doRequestF_login c ep hep fuel "POST"
    (some (loginForm c)) formContentType none s
  unfold authLoginF
  split
  · next e s1 heq => rw [heq] at base; exact base
  · next resp s1 heq =>
    rw [heq] at base
    split
    · exact base
    · split <;> simpa using base

/-- Claim C3 (confirmed): for every dispatched request whose first
attempt returns HTTP 403, if the re-authentication login (`AuthLogin`)
then fails, the call returns a fatal error wrapping the login failure
(`re-authentication failed: …`) and the original request is not sent a
second time — exactly one request to the original endpoint is in the
trace. -/
theorem C3_reauth_failure_fatal (c : Cred) (fuel : Nat) (method endpoint : String)
    (rb : Option String) (ct : String) (q : Option QList) (sid0 fb : String)
    (fc : List (String × String)) (rest : List Response) (e : Err) (s2 : St)
    (hep : endpoint ≠ loginPath)
    (hfail : authLoginF c fuel
        { sid := sid0, pending := rest,
          sent := [mkReq method endpoint rb ct q sid0] } = (.error e, s2)) :
    doRequestF c method endpoint rb ct q (fuel + 1)
        { sid := sid0, pending := ⟨403, fb, fc⟩ :: rest, sent := [] } =
      (.error (.reAuth e), s2)
    ∧ countPath endpoint s2.sent = 1 := by
  have hcount : countPath endpoint s2.sent = 1 := by
    have h2 := countPath_authLoginF c endpoint hep fuel
      { sid := sid0, pending := rest, sent := [mkReq method endpoint rb ct q sid0] }
    rw [hfail] at h2
    simpa [countPath_mkReq_self] using h2
  refine ⟨?_, hcount⟩
  unfold authLoginF at hfail
  simp only [doRequestF, send, List.nil_append]
  rw [if_pos trivial]
  split
  · next e0 s3 heq2 =>
    rw [heq2] at hfail
    simp only [Prod.mk.injEq, Except.error.injEq] at hfail
    obtain ⟨h1, h2⟩ := hfail
    rw [← h1, h2]
  · next lresp s3 heq2 =>
    rw [heq2] at hfail
    simp only [] at hfail
    by_cases hst : lresp.status = 200
    · rw [if_neg (by simpa using hst)] at hfail
      split at hfail <;> simp at hfail
    · rw [if_pos hst] at hfail
      simp only [Prod.mk.injEq, Except.error.injEq] at hfail
      obtain ⟨h1, h2⟩ := hfail
      rw [if_pos hst, ← h1, h2]

/-- Claim C3 witness: the spec's scenario — a GET answered 403, the
login answered 401; the call fails fatally and the GET appears once in
the trace. -/
theorem C3_reauth_failure_fatal_witness :
    ("/api/test" : String) ≠ loginPath
    ∧ authLoginF ⟨"u", "p"⟩ 1
        { sid := "", pending := [⟨401, "Auth failed", []⟩],
          sent := [mkReq "GET" "/api/test" none "" none ""] } =
      (.error (.authStatus 401 "Auth failed"),
        { sid := "", pending := [],
          sent := [mkReq "GET" "/api/test" none "" none "",
                   mkReq "POST" loginPath (some (loginForm ⟨"u", "p"⟩))
                     formContentType none ""] })
    ∧ doRequestF ⟨"u", "p"⟩ "GET" "/api/test" none "" none 2
        { sid := "", pending := [⟨403, "Forbidden", []⟩, ⟨401, "Auth failed", []⟩],
          sent := [] } =
      (.error (.reAuth (.authStatus 401 "Auth failed")),
        { sid := "", pending := [],
          sent := [mkReq "GET" "/api/test" none "" none "",
                   mkReq "POST" loginPath (some (loginForm ⟨"u", "p"⟩))
                     formContentType none ""] })
    ∧ countPath "/api/test"
        ({ sid := "", pending := [],
           sent := [mkReq "GET" "/api/test" none "" none "",
                    mkReq "POST" loginPath (some (loginForm ⟨"u", "p"⟩))
                      formContentType none ""] } : St).sent = 1 :=
  ⟨by decide, rfl,
    (C3_reauth_failure_fatal ⟨"u", "p"⟩ 1 "GET" "/api/test" none "" none "" "Forbidden"
      [] [⟨401, "Auth failed", []⟩] (.authStatus 401 "Auth failed")
      { sid := "", pending := [],
        sent := [mkReq "GET" "/api/test" none "" none "",
                 mkReq "POST" loginPath (some (loginForm ⟨"u", "p"⟩))
                   formContentType none ""] }
      (by decide) rfl).1,
    (C3_reauth_failure_fatal ⟨"u", "p"⟩ 1 "GET" "/api/test" none "" none "" "Forbidden"
      [] [⟨401, "Auth failed", []⟩] (.authStatus 401 "Auth failed")
      { sid := "", pending := [],
        sent := [mkReq "GET" "/api/test" none "" none "",
                 mkReq "POST" loginPath (some (loginForm ⟨"u", "p"⟩))
                   formContentType none ""] }
      (by decide) rfl).2⟩

/-- Claim C1 counterexample: against a server that answers 403 to every
request — including the login request itself — one dispatcher call
performs two re-authentication attempts (two login requests appear in
the trace), because `AuthLogin`'s own POST travels through `doRequest`
and its 403 answer triggers a further, nested re-authentication.  The
"at most one re-authentication attempt per call, regardless of the
sequence of server responses" bound is therefore false. -/
theorem C1_counterexample :
    ¬ (countPath loginPath
        (doRequestF ⟨"u", "p"⟩ "GET" "/api/v2/torrents/info" none "" (some []) 10
          { sid := "",
            pending := [⟨403, "Forbidden", []⟩, ⟨403, "Forbidden", []⟩,
              ⟨403, "Forbidden", []⟩],
            sent := [] }).2.sent ≤ 1) := by decide

/-- Claim C1 (amended): per dispatcher call, the original request (to an
endpoint other than the login endpoint) is sent at most twice — once,
and at most once more after the in-frame re-authentication, with no
further retry loop.  The number of login requests, however, is not
bounded by one: a 403 answer to the login request triggers a nested
re-authentication (see the counterexample), so only requests to the
original endpoint obey the bound. -/
theorem C1_amended_request_bound (c : Cred) (method endpoint : String)
    (rb : Option String) (ct : String) (q : Option QList) (fuel : Nat) (s : St)
    (hep : endpoint ≠ loginPath) :
    countPath endpoint (doRequestF c method endpoint rb ct q fuel s).2.sent ≤
      countPath endpoint s.sent + 2 := by
  cases fuel with
  | zero =>
    show countPath endpoint s.sent ≤ countPath endpoint s.sent + 2
    omega
  | succ n =>
    simp only [doRequestF]
    split
    · next s1 heq =>
      show countPath endpoint s1.sent ≤ countPath endpoint s.sent + 2
      rw [send_none heq]
      omega
    · next resp s1 heq =>
      have hs1 : countPath endpoint s1.sent = countPath endpoint s.sent + 1 := by
        rw [send_some heq, countPath_append, countPath_mkReq_self]
      split
      · split
        · next e0 s3 heq2 =>
          have hl := countPath_doRequestF_login c endpoint hep n "POST"
            (some (loginForm c)) formContentType none s1
          rw [heq2] at hl
          have hl3 : countPath endpoint s3.sent = countPath endpoint s1.sent := hl
          show countPath endpoint s3.sent ≤ countPath endpoint s.sent + 2
          omega
        · next lresp s3 heq2 =>
          have hl := countPath_doRequestF_login c endpoint hep n "POST"
            (some (loginForm c)) formContentType none s1
          rw [heq2] at hl
          have hl3 : countPath endpoint s3.sent = countPath endpoint s1.sent := hl
          split
          · show countPath endpoint s3.sent ≤ countPath endpoint s.sent + 2
            omega
          · split
            · next s4 heq4 =>
              show countPath endpoint s4.sent ≤ countPath endpoint s.sent + 2
              rw [send_none heq4]
              split
              · next kv heqc =>
                show countPath endpoint s3.sent ≤ countPath endpoint s.sent + 2
                omega
              · omega
            · next resp2 s4 heq4 =>
              show countPath endpoint s4.sent ≤ countPath endpoint s.sent + 2
              rw [send_some heq4, countPath_append, countPath_mkReq_self]
              split
              · next kv heqc =>
                show countPath endpoint s3.sent + 1 ≤ countPath endpoint s.sent + 2
                omega
              · omega
      · show countPath endpoint s1.sent ≤ countPath endpoint s.sent + 2
        omega

/-- Claim C1 witness (for the amended bound): the successful-reauth
scenario sends the original request exactly twice. -/
theorem C1_amended_request_bound_witness :
    ("/api/v2/torrents/info" : String) ≠ loginPath
    ∧ countPath "/api/v2/torrents/info"
        (doRequestF ⟨"u", "p"⟩ "GET" "/api/v2/torrents/info" none "" (some []) 4
          { sid := "",
            pending := [⟨403, "Forbidden", []⟩, ⟨200, "Ok.", [("SID", "t")]⟩,
              ⟨200, "[]", []⟩],
            sent := [] }).2.sent ≤
      countPath "/api/v2/torrents/info"
        ({ sid := "",
           pending := [⟨403, "Forbidden", []⟩, ⟨200, "Ok.", [("SID", "t")]⟩,
             ⟨200, "[]", []⟩],
           sent := [] } : St).sent + 2 :=
  ⟨by decide,
    C1_amended_request_bound ⟨"u", "p"⟩ "GET" "/api/v2/torrents/info" none "" (some []) 4
      { sid := "",
        pending := [⟨403, "Forbidden", []⟩, ⟨200, "Ok.", [("SID", "t")]⟩,
          ⟨200, "[]", []⟩],
        sent := [] } (by decide)⟩

end QBit
